import Mathlib

/-!
Verification development for the `rustimage` conversion engine
(`rustimage-core`: `types.rs`, `codecs.rs`, `converter.rs`).

The Rust source is shallowly embedded: pure Rust functions become Lean
functions, byte slices become `List Nat` (each entry a byte value),
`u32`/`u64`/`usize` become `Nat` (with an explicit `% 2 ^ 32` where u32
multiplication can wrap), `f32`/`f64` arithmetic on decimal literals is
modelled exactly over `ℚ`, and fallible Rust functions returning
`Result<T, ImageError>` become `Except ImageError T`.  Wall-clock time
(`Instant::now`) is not modellable; elapsed-time fields are recorded as `0`.
-/

namespace RustImage

/-- Supported image formats (`types.rs`, `enum ImageFormat`). -/
inductive ImageFormat where
  | jpeg
  | png
  | webp
  | avif
  | bmp
  | tiff
  | gif
  | ico
deriving DecidableEq, Repr

/-- Error type (`error.rs`, `enum ImageError`): the variants reached by the
code under verification.  Field order and contents follow the source. -/
inductive ImageError where
  | invalidFormat (format : String)
  | invalidParameters (details : String)
  | unsupportedOperation (operation : String)
  | batchProcessingFailed (successfulCount : Nat) (failedCount : Nat)
      (firstError : ImageError)
deriving DecidableEq, Repr

/-- Decidable equality for `Except`, used to evaluate detector and
converter results on concrete inputs. -/
instance {ε α : Type} [DecidableEq ε] [DecidableEq α] :
    DecidableEq (Except ε α) := fun x y =>
  match x, y with
  | .ok a, .ok b =>
      if h : a = b then .isTrue (by rw [h])
      else .isFalse (by intro hc; injection hc; exact h (by assumption))
  | .error a, .error b =>
      if h : a = b then .isTrue (by rw [h])
      else .isFalse (by intro hc; injection hc; exact h (by assumption))
  | .ok _, .error _ => .isFalse (by intro hc; exact Except.noConfusion hc)
  | .error _, .ok _ => .isFalse (by intro hc; exact Except.noConfusion hc)

/-- Format capability bit flags (`types.rs`, `struct FormatCapabilities`,
a `u8` bit set). -/
structure FormatCapabilities where
  flags : Nat
deriving DecidableEq, Repr

namespace FormatCapabilities

/-- Flag constant `LOSSY = 1 << 0`. -/
def LOSSY : Nat := 1

/-- Flag constant `TRANSPARENCY = 1 << 1`. -/
def TRANSPARENCY : Nat := 2

/-- Flag constant `ANIMATION = 1 << 2`. -/
def ANIMATION : Nat := 4

/-- Flag constant `PROGRESSIVE = 1 << 3`. -/
def PROGRESSIVE : Nat := 8

/-- Flag constant `METADATA = 1 << 4`. -/
def METADATA : Nat := 16

/-- Flag constant `HDR = 1 << 5`. -/
def HDR : Nat := 32

/-- Constructor `FormatCapabilities::new`: empty flag set. -/
def new : FormatCapabilities := ⟨0⟩

/-- Builder `with_lossy`. -/
def withLossy (c : FormatCapabilities) : FormatCapabilities := ⟨c.flags ||| LOSSY⟩

/-- Builder `with_transparency`. -/
def withTransparency (c : FormatCapabilities) : FormatCapabilities :=
  ⟨c.flags ||| TRANSPARENCY⟩

/-- Builder `with_animation`. -/
def withAnimation (c : FormatCapabilities) : FormatCapabilities :=
  ⟨c.flags ||| ANIMATION⟩

/-- Builder `with_progressive`. -/
def withProgressive (c : FormatCapabilities) : FormatCapabilities :=
  ⟨c.flags ||| PROGRESSIVE⟩

/-- Builder `with_metadata`. -/
def withMetadata (c : FormatCapabilities) : FormatCapabilities :=
  ⟨c.flags ||| METADATA⟩

/-- Builder `with_hdr`. -/
def withHdr (c : FormatCapabilities) : FormatCapabilities := ⟨c.flags ||| HDR⟩

/-- Query `supports_lossy`: tests the `LOSSY` bit. -/
def supportsLossy (c : FormatCapabilities) : Bool := c.flags &&& LOSSY != 0

/-- Query `supports_transparency`. -/
def supportsTransparency (c : FormatCapabilities) : Bool :=
  c.flags &&& TRANSPARENCY != 0

end FormatCapabilities

/-- Capability table from `ImageFormat::info` (`types.rs`): only the
`capabilities` field of each `FormatInfo` arm, which is what encode-time
validation consults. -/
def ImageFormat.capabilities : ImageFormat → FormatCapabilities
  | .jpeg =>
      FormatCapabilities.new.withLossy.withProgressive.withMetadata
  | .png =>
      FormatCapabilities.new.withTransparency.withMetadata
  | .webp =>
      FormatCapabilities.new.withLossy.withTransparency.withAnimation.withMetadata
  | .avif =>
      FormatCapabilities.new.withLossy.withTransparency.withAnimation.withHdr.withMetadata
  | .bmp => FormatCapabilities.new
  | .tiff =>
      FormatCapabilities.new.withTransparency.withMetadata
  | .gif =>
      FormatCapabilities.new.withTransparency.withAnimation
  | .ico =>
      FormatCapabilities.new.withTransparency

/-- Query `ImageFormat::supports_lossy` (`types.rs`). -/
def ImageFormat.supportsLossy (f : ImageFormat) : Bool :=
  f.capabilities.supportsLossy

/-- Display name of a format (`FormatInfo.name` in `ImageFormat::info`),
used by codec stub error messages. -/
def ImageFormat.name : ImageFormat → String
  | .jpeg => "JPEG"
  | .png => "PNG"
  | .webp => "WebP"
  | .avif => "AVIF"
  | .bmp => "BMP"
  | .tiff => "TIFF"
  | .gif => "GIF"
  | .ico => "ICO"

/-- Debug rendering of a format (the derived `Debug` of
`enum ImageFormat`, which prints the variant name), used by the
`{:?}` format specifiers in `converter.rs`. -/
def ImageFormat.debugName : ImageFormat → String
  | .jpeg => "Jpeg"
  | .png => "Png"
  | .webp => "WebP"
  | .avif => "Avif"
  | .bmp => "Bmp"
  | .tiff => "Tiff"
  | .gif => "Gif"
  | .ico => "Ico"

/-! ## Format detection (`codecs.rs`, `FormatDetector::detect`) -/

/-- Format detector (`codecs.rs`): translated test by test, in source
order.  Slice comparisons `data[a..b] == [..]` become
`(data.drop a).take (b - a) == [..]`, guarded by the same length checks
as the source. -/
def FormatDetector.detect (data : List Nat) : Except ImageError ImageFormat :=
  if data.length < 8 then
    .error (.invalidFormat "Data too short for format detection")
  else if [0xFF, 0xD8, 0xFF].isPrefixOf data then
    .ok .jpeg
  else if [0x89, 0x50, 0x4E, 0x47, 0x0D, 0x0A, 0x1A, 0x0A].isPrefixOf data then
    .ok .png
  else if decide (12 ≤ data.length) && data.take 4 == [0x52, 0x49, 0x46, 0x46]
      && (data.drop 8).take 4 == [0x57, 0x45, 0x42, 0x50] then
    .ok .webp
  else if decide (12 ≤ data.length) && (data.drop 4).take 4 == [0x66, 0x74, 0x79, 0x70]
      && (data.drop 8).take 4 == [0x61, 0x76, 0x69, 0x66] then
    .ok .avif
  else if [0x42, 0x4D].isPrefixOf data then
    .ok .bmp
  else if [0x49, 0x49, 0x2A, 0x00].isPrefixOf data
      || [0x4D, 0x4D, 0x00, 0x2A].isPrefixOf data then
    .ok .tiff
  else if [0x47, 0x49, 0x46, 0x38, 0x37, 0x61].isPrefixOf data
      || [0x47, 0x49, 0x46, 0x38, 0x39, 0x61].isPrefixOf data then
    .ok .gif
  else if decide (4 ≤ data.length) && data.take 4 == [0x00, 0x00, 0x01, 0x00] then
    .ok .ico
  else
    .error (.invalidFormat "Unknown format - no matching file signature")

/-- Canonical magic-byte signature test of one format, exactly the
condition `FormatDetector::detect` uses for that format (spec §4.1 lists
the same signatures). -/
def hasSignature (f : ImageFormat) (data : List Nat) : Bool :=
  match f with
  | .jpeg => [0xFF, 0xD8, 0xFF].isPrefixOf data
  | .png => [0x89, 0x50, 0x4E, 0x47, 0x0D, 0x0A, 0x1A, 0x0A].isPrefixOf data
  | .webp => decide (12 ≤ data.length) && data.take 4 == [0x52, 0x49, 0x46, 0x46]
      && (data.drop 8).take 4 == [0x57, 0x45, 0x42, 0x50]
  | .avif => decide (12 ≤ data.length) && (data.drop 4).take 4 == [0x66, 0x74, 0x79, 0x70]
      && (data.drop 8).take 4 == [0x61, 0x76, 0x69, 0x66]
  | .bmp => [0x42, 0x4D].isPrefixOf data
  | .tiff => [0x49, 0x49, 0x2A, 0x00].isPrefixOf data
      || [0x4D, 0x4D, 0x00, 0x2A].isPrefixOf data
  | .gif => [0x47, 0x49, 0x46, 0x38, 0x37, 0x61].isPrefixOf data
      || [0x47, 0x49, 0x46, 0x38, 0x39, 0x61].isPrefixOf data
  | .ico => decide (4 ≤ data.length) && data.take 4 == [0x00, 0x00, 0x01, 0x00]

/-- Position of a format in the fixed order in which
`FormatDetector::detect` runs its tests. -/
def detectPriority : ImageFormat → Nat
  | .jpeg => 0
  | .png => 1
  | .webp => 2
  | .avif => 3
  | .bmp => 4
  | .tiff => 5
  | .gif => 6
  | .ico => 7

/-! ## Conversion options (`types.rs`) -/

/-- Conversion options (`types.rs`, `struct ConversionOptions`).  `f32`
quality is modelled over `ℚ`; `u8` compression level over `Nat`; the
custom `HashMap<String, String>` as an association list. -/
structure ConversionOptions where
  quality : Option ℚ
  compressionLevel : Option Nat
  progressive : Option Bool
  preserveDimensions : Bool
  preserveColorSpace : Bool
  preserveMetadata : Bool
  custom : List (String × String)
deriving DecidableEq, Repr

/-- Defaults of `ConversionOptions` (`impl Default`): quality 0.8,
compression level 6, progressive false, preserve dimensions and color
space, drop metadata, no custom parameters. -/
def ConversionOptions.default : ConversionOptions :=
  { quality := some 0.8
    compressionLevel := some 6
    progressive := some false
    preserveDimensions := true
    preserveColorSpace := true
    preserveMetadata := false
    custom := [] }

/-- Builder state (`ConversionOptionsBuilder::new`). -/
def ConversionOptionsBuilder.new : ConversionOptions := ConversionOptions.default

/-- Builder setter `quality`: clamps the value into `[0, 1]`
(`quality.clamp(0.0, 1.0)`). -/
def ConversionOptionsBuilder.quality (o : ConversionOptions) (q : ℚ) :
    ConversionOptions :=
  { o with quality := some (max 0 (min q 1)) }

/-- Builder setter `compression_level`: clamps the value to at most 9
(`level.min(9)`). -/
def ConversionOptionsBuilder.compressionLevel (o : ConversionOptions) (l : Nat) :
    ConversionOptions :=
  { o with compressionLevel := some (min l 9) }

/-! ## Pixel model (`types.rs`) and image buffers (`codecs.rs`) -/

/-- RGBA pixel (`types.rs`, `struct Rgba<T>`); subpixels are byte values
modelled as `Nat`. -/
structure Rgba where
  r : Nat
  g : Nat
  b : Nat
  a : Nat
deriving DecidableEq, Repr

/-- Luminance of an RGBA pixel (`types.rs`, `Rgba::luminance`): the
source computes `0.2126 * r + 0.7152 * g + 0.0722 * b` in `f32` and casts
the result with `as u8` (saturating truncation).  The `f32` arithmetic is
modelled exactly over `ℚ`; the cast becomes a floor clamped into
`[0, 255]`. -/
def Rgba.luminance (p : Rgba) : Nat :=
  let lum : ℚ := 0.2126 * (p.r : ℚ) + 0.7152 * (p.g : ℚ) + 0.0722 * (p.b : ℚ)
  Int.toNat (min (max ⌊lum⌋ 0) 255)

/-- Luma formula the spec states for the RGBA-to-gray reduction
(`0.299R + 0.587G + 0.114B`), under the same cast convention as
`Rgba.luminance`.  Written from the words of the spec, to be compared with the
source definition. -/
def lumaBt601Spec (p : Rgba) : Nat :=
  let lum : ℚ := 0.299 * (p.r : ℚ) + 0.587 * (p.g : ℚ) + 0.114 * (p.b : ℚ)
  Int.toNat (min (max ⌊lum⌋ 0) 255)

/-- Image dimensions (`types.rs`, `struct ImageDimensions`): `u32` width
and height as `Nat`. -/
structure ImageDimensions where
  width : Nat
  height : Nat
deriving DecidableEq, Repr

/-- Pixel format tag (`codecs.rs`, `enum PixelFormat`). -/
inductive PixelFormat where
  | rgb8
  | rgba8
  | gray8
  | rgb16
  | rgba16
  | gray16
deriving DecidableEq, Repr

/-- Pixel buffer (`codecs.rs`, `struct ImageBuffer<P>`). -/
structure ImageBuffer (P : Type) where
  pixels : List P
  dimensions : ImageDimensions
  pixelFormat : PixelFormat
deriving DecidableEq, Repr

/-- Constructor `ImageBuffer::new` (`codecs.rs`): the source computes
`capacity = (width * height) as usize` and allocates
`Vec::with_capacity(capacity)`, which has length 0 — the pixel list starts
empty regardless of the dimensions. -/
def ImageBuffer.new (P : Type) (width height : Nat) (pixelFormat : PixelFormat) :
    ImageBuffer P :=
  { pixels := []
    dimensions := { width := width, height := height }
    pixelFormat := pixelFormat }

/-- Constructor `ImageBuffer::from_raw` (`codecs.rs`): fails unless the
data length equals `(width * height) as usize`; `width * height` is `u32`
multiplication, modelled with an explicit wrap `% 2 ^ 32`. -/
def ImageBuffer.fromRaw (P : Type) (width height : Nat) (data : List P)
    (pixelFormat : PixelFormat) : Except ImageError (ImageBuffer P) :=
  let expectedLen := width * height % 2 ^ 32
  if data.length ≠ expectedLen then
    .error (.invalidParameters
      ("Data length " ++ toString data.length ++ " does not match dimensions "
        ++ toString width ++ "×" ++ toString height ++ " (expected "
        ++ toString expectedLen ++ ")"))
  else
    .ok { pixels := data
          dimensions := { width := width, height := height }
          pixelFormat := pixelFormat }

/-- Accessor `ImageBuffer::get_pixel` (`codecs.rs`): bounds-checked read;
the index arithmetic `y * width + x` is `u32`, modelled with an explicit
wrap. -/
def ImageBuffer.getPixel {P : Type} (buf : ImageBuffer P) (x y : Nat) :
    Option P :=
  if x ≥ buf.dimensions.width ∨ y ≥ buf.dimensions.height then
    none
  else
    buf.pixels.get? ((y * buf.dimensions.width + x) % 2 ^ 32)

/-- Mutator `ImageBuffer::put_pixel` (`codecs.rs`): in-place write
modelled as returning the updated buffer; out-of-range coordinates and
an under-filled pixel vector fail with `InvalidParameters`. -/
def ImageBuffer.putPixel {P : Type} (buf : ImageBuffer P) (x y : Nat) (p : P) :
    Except ImageError (ImageBuffer P) :=
  if x ≥ buf.dimensions.width ∨ y ≥ buf.dimensions.height then
    .error (.invalidParameters
      ("Pixel coordinates (" ++ toString x ++ ", " ++ toString y ++ ") out of bounds"))
  else
    let index := (y * buf.dimensions.width + x) % 2 ^ 32
    if index < buf.pixels.length then
      .ok { buf with pixels := buf.pixels.set index p }
    else
      .error (.invalidParameters "Buffer not properly initialized")

/-- Pixel-format conversion `CodecEngine::convert_buffer` (`codecs.rs`):
maps the conversion function over the pixels and retags the buffer (the
inferred target tag is taken as a parameter). -/
def convertBuffer {P Q : Type} (conv : P → Q) (target : PixelFormat)
    (buf : ImageBuffer P) : ImageBuffer Q :=
  { pixels := buf.pixels.map conv
    dimensions := buf.dimensions
    pixelFormat := target }

/-! ## Conversion results (`types.rs`, `ConvertedImage`) -/

/-- Quality metrics (`types.rs`, `struct QualityMetrics`), `f32` fields
over `ℚ`. -/
structure QualityMetrics where
  psnr : ℚ
  ssim : ℚ
  perceptualSimilarity : ℚ
deriving DecidableEq, Repr

/-- Conversion result (`types.rs`, `struct ConvertedImage`). -/
structure ConvertedImage where
  data : List Nat
  dimensions : ImageDimensions
  format : ImageFormat
  conversionTimeMs : ℚ
  originalSize : Nat
  convertedSize : Nat
  compressionRatio : ℚ
  qualityMetrics : Option QualityMetrics
deriving DecidableEq, Repr

/-- Constructor `ConvertedImage::new` (`types.rs`): derives
`converted_size` from the data and `compression_ratio` as
`converted_size / original_size` in `f32` (modelled over `ℚ`), defined as
`1.0` when `original_size` is 0. -/
def ConvertedImage.new (data : List Nat) (dimensions : ImageDimensions)
    (format : ImageFormat) (conversionTimeMs : ℚ) (originalSize : Nat) :
    ConvertedImage :=
  let convertedSize := data.length
  let compressionRatio : ℚ :=
    if originalSize > 0 then (convertedSize : ℚ) / (originalSize : ℚ) else 1
  { data := data
    dimensions := dimensions
    format := format
    conversionTimeMs := conversionTimeMs
    originalSize := originalSize
    convertedSize := convertedSize
    compressionRatio := compressionRatio
    qualityMetrics := none }

/-! ## Codec engine (`codecs.rs`) -/

/-- Supported-format list (`CodecEngine::supported_formats`). -/
def supportedFormats : List ImageFormat :=
  [.jpeg, .png, .webp, .avif, .bmp, .tiff, .gif, .ico]

/-- Conversion-pair support check (`CodecEngine::supports_conversion`):
both endpoints must appear in the supported-format list. -/
def supportsConversion (fromFormat toFormat : ImageFormat) : Bool :=
  supportedFormats.contains fromFormat && supportedFormats.contains toFormat

/-- Encode-parameter validation (`CodecEngine::validate_encode_params`):
for lossy-capable target formats an out-of-range quality fails; for
formats without lossy support a compression level above 9 fails. -/
def validateEncodeParams (format : ImageFormat) (options : ConversionOptions) :
    Except ImageError Unit := do
  let info := format.capabilities
  if info.supportsLossy then
    match options.quality with
    | some quality =>
        if ¬ (0 ≤ quality ∧ quality ≤ 1) then
          throw (.invalidParameters
            ("Quality " ++ toString quality ++ " out of range [0.0, 1.0]"))
        else pure ()
    | none => pure ()
  if ¬ info.supportsLossy then
    match options.compressionLevel with
    | some level =>
        if level > 9 then
          throw (.invalidParameters
            ("Compression level " ++ toString level ++ " out of range [0, 9]"))
        else pure ()
    | none => pure ()
  return ()

/-- The per-format codec behaviour behind the codec registry
(`CodecRegistry`): `validate_format`, `decode` and `encode` of the codec
selected for a format.  A structure of functions, so that theorems about
the dispatch layers quantify over every codec behaviour; the stub codecs
of the source are one instance (`stubEngine`). -/
structure CodecEngineModel where
  validateFormat : ImageFormat → List Nat → Bool
  codecDecode : ImageFormat → List Nat → Except ImageError (ImageBuffer Rgba)
  codecEncode : ImageFormat → ImageBuffer Rgba → ConversionOptions →
    Except ImageError (List Nat)

/-- The codec registry the source actually installs (`impl_codec_stub!`
in `codecs.rs`): every codec rejects validation and fails decode/encode
with `UnsupportedOperation`. -/
def stubEngine : CodecEngineModel :=
  { validateFormat := fun _ _ => false
    codecDecode := fun f _ =>
      .error (.unsupportedOperation (f.name ++ " decode not yet implemented"))
    codecEncode := fun f _ _ =>
      .error (.unsupportedOperation (f.name ++ " encode not yet implemented")) }

/-- Format/data validation (`CodecEngine::validate_format_data`): empty
data and data rejected by the per-codec `validate_format` both fail with
`InvalidFormat`. -/
def validateFormatData (e : CodecEngineModel) (data : List Nat)
    (format : ImageFormat) : Except ImageError Unit :=
  if data.isEmpty then
    .error (.invalidFormat ("Empty data for format " ++ format.name))
  else if ¬ e.validateFormat format data then
    .error (.invalidFormat ("Data does not match format " ++ format.name))
  else
    .ok ()

/-- Decoding entry point (`CodecEngine::decode` at pixel type `Rgba8`):
validates the data, then delegates to the codec.  The final
`convert_buffer::<Rgba8, P>` step is the identity at `Rgba8`. -/
def engineDecode (e : CodecEngineModel) (data : List Nat)
    (format : ImageFormat) : Except ImageError (ImageBuffer Rgba) := do
  validateFormatData e data format
  e.codecDecode format data

/-- Encoding entry point (`CodecEngine::encode` at pixel type `Rgba8`):
validates the encode parameters, then delegates to the codec (the
`convert_buffer::<P, Rgba8>` step is the identity at `Rgba8`). -/
def engineEncode (e : CodecEngineModel) (buffer : ImageBuffer Rgba)
    (format : ImageFormat) (options : ConversionOptions) :
    Except ImageError (List Nat) := do
  validateEncodeParams format options
  e.codecEncode format buffer options

/-! ## Conversion orchestrator (`converter.rs`) -/

/-- Quality strategy (`converter.rs`, `enum QualityStrategy`). -/
inductive QualityStrategy where
  | preserveOriginal
  | optimizeSize
  | balanced
  | maxQuality
deriving DecidableEq, Repr

/-- Converter configuration (`converter.rs`, `struct ConverterConfig`):
only the fields the modelled control flow consults. -/
structure ConverterConfig where
  enableParallel : Bool
  enablePerformanceMonitoring : Bool
  defaultQualityStrategy : QualityStrategy
deriving DecidableEq, Repr

/-- Defaults of `ConverterConfig` (`impl Default`). -/
def ConverterConfig.default : ConverterConfig :=
  { enableParallel := true
    enablePerformanceMonitoring := false
    defaultQualityStrategy := .balanced }

/-- Conversion statistics (`converter.rs`, `struct ConversionStats`):
the `HashMap<(ImageFormat, ImageFormat), u64>` of per-pair usage counts
is modelled as a total function defaulting to 0 (`entry(..).or_insert(0)`
semantics). -/
structure ConversionStats where
  totalConversions : Nat
  successfulConversions : Nat
  failedConversions : Nat
  totalProcessingTimeMs : ℚ
  totalInputBytes : Nat
  totalOutputBytes : Nat
  formatUsage : ImageFormat × ImageFormat → Nat

/-- Zero statistics (`ConversionStats::default`). -/
def ConversionStats.default : ConversionStats :=
  { totalConversions := 0
    successfulConversions := 0
    failedConversions := 0
    totalProcessingTimeMs := 0
    totalInputBytes := 0
    totalOutputBytes := 0
    formatUsage := fun _ => 0 }

/-- Conversion context (`converter.rs`, `struct ConversionContext`); the
`Instant` start time is not modellable and is omitted. -/
structure ConversionContext where
  fromFormat : ImageFormat
  toFormat : ImageFormat
  inputSize : Nat
  options : ConversionOptions
  enableMonitoring : Bool

/-- Request validation (`FormatConverter::validate_conversion_request`):
an unsupported format pair fails with `UnsupportedOperation`, then empty
input fails with `InvalidParameters`. -/
def validateConversionRequest (ctx : ConversionContext) :
    Except ImageError Unit :=
  if ¬ supportsConversion ctx.fromFormat ctx.toFormat then
    .error (.unsupportedOperation
      ("Conversion from " ++ ctx.fromFormat.debugName ++ " to "
        ++ ctx.toFormat.debugName ++ " is not supported"))
  else if ctx.inputSize = 0 then
    .error (.invalidParameters "Empty input data")
  else
    .ok ()

/-- Default options per strategy
(`FormatConverter::get_default_options`), built through the clamping
builder setters. -/
def getDefaultOptions (cfg : ConverterConfig) : ConversionOptions :=
  match cfg.defaultQualityStrategy with
  | .preserveOriginal =>
      ConversionOptionsBuilder.quality ConversionOptionsBuilder.new 0.95
  | .optimizeSize =>
      ConversionOptionsBuilder.compressionLevel
        (ConversionOptionsBuilder.quality ConversionOptionsBuilder.new 0.75) 9
  | .balanced =>
      ConversionOptionsBuilder.compressionLevel
        (ConversionOptionsBuilder.quality ConversionOptionsBuilder.new 0.85) 6
  | .maxQuality =>
      ConversionOptionsBuilder.compressionLevel
        (ConversionOptionsBuilder.quality ConversionOptionsBuilder.new 1) 0

/-- Single-conversion core (`FormatConverter::execute_conversion`):
decode, encode, build the result (elapsed time recorded as 0, since wall
clocks are not modelled). -/
def executeConversion (e : CodecEngineModel) (imageData : List Nat)
    (ctx : ConversionContext) : Except ImageError ConvertedImage := do
  let imageBuffer ← engineDecode e imageData ctx.fromFormat
  let outputData ← engineEncode e imageBuffer ctx.toFormat ctx.options
  pure (ConvertedImage.new outputData imageBuffer.dimensions ctx.toFormat 0
    ctx.inputSize)

/-- Statistics update (`FormatConverter::update_conversion_stats`):
increments the total and input-byte counters, then the success or failure
counters, then the `(from, to)` usage counter (elapsed time recorded
as 0). -/
def updateConversionStats (stats : ConversionStats) (ctx : ConversionContext)
    (result : Except ImageError ConvertedImage) : ConversionStats :=
  let s1 := { stats with
    totalConversions := stats.totalConversions + 1
    totalInputBytes := stats.totalInputBytes + ctx.inputSize }
  let s2 :=
    match result with
    | .ok converted => { s1 with
        successfulConversions := s1.successfulConversions + 1
        totalProcessingTimeMs := s1.totalProcessingTimeMs + 0
        totalOutputBytes := s1.totalOutputBytes + converted.data.length }
    | .error _ => { s1 with failedConversions := s1.failedConversions + 1 }
  { s2 with formatUsage := fun pair =>
      if pair = (ctx.fromFormat, ctx.toFormat) then s2.formatUsage pair + 1
      else s2.formatUsage pair }

/-- Main conversion entry point (`FormatConverter::convert_format`):
builds the context, validates the request (an early `?` return on
failure), executes the conversion and updates the statistics.  The mutable
`self.conversion_stats` is threaded explicitly. -/
def convertFormat (e : CodecEngineModel) (cfg : ConverterConfig)
    (stats : ConversionStats) (imageData : List Nat)
    (fromFormat toFormat : ImageFormat) (options : Option ConversionOptions) :
    Except ImageError ConvertedImage × ConversionStats :=
  let ctx : ConversionContext :=
    { fromFormat := fromFormat
      toFormat := toFormat
      inputSize := imageData.length
      options := options.getD (getDefaultOptions cfg)
      enableMonitoring := cfg.enablePerformanceMonitoring }
  match validateConversionRequest ctx with
  | .error err => (.error err, stats)
  | .ok _ =>
      let result := executeConversion e imageData ctx
      (result, updateConversionStats stats ctx result)

/-! ## Batch coordination (`converter.rs`) -/

/-- Image input (`types.rs`, `struct ImageInput`). -/
structure ImageInput where
  data : List Nat
  format : ImageFormat
  filename : Option String
deriving DecidableEq, Repr

/-- Conversion task (`types.rs`, `struct ConversionTask`). -/
structure ConversionTask where
  fromFormat : ImageFormat
  toFormat : ImageFormat
  options : Option ConversionOptions
deriving DecidableEq, Repr

/-- Sequential batch execution
(`FormatConverter::execute_sequential_batch`): converts each
(input, task) pair in order, threading the shared statistics through
`convert_format`. -/
def executeSequentialBatch (e : CodecEngineModel) (cfg : ConverterConfig)
    (stats : ConversionStats) :
    List (ImageInput × ConversionTask) →
      List (Except ImageError ConvertedImage) × ConversionStats
  | [] => ([], stats)
  | (image, task) :: rest =>
      let (result, stats1) :=
        convertFormat e cfg stats image.data task.fromFormat task.toFormat
          task.options
      let (results, stats2) := executeSequentialBatch e cfg stats1 rest
      (result :: results, stats2)

/-- Per-item results of a batch, per the configured policy: the parallel
path (`execute_parallel_batch`) runs every task on a freshly constructed
local converter — so with zero statistics, and without touching the shared
statistics — while the sequential path threads the shared statistics. -/
def batchResults (e : CodecEngineModel) (cfg : ConverterConfig)
    (stats : ConversionStats) (pairs : List (ImageInput × ConversionTask)) :
    List (Except ImageError ConvertedImage) × ConversionStats :=
  if cfg.enableParallel then
    (pairs.map (fun p =>
      (convertFormat e cfg ConversionStats.default p.1.data p.2.fromFormat
        p.2.toFormat p.2.options).1), stats)
  else
    executeSequentialBatch e cfg stats pairs

/-- Result split of the aggregation loop in
`FormatConverter::aggregate_batch_results`: walks the results in index
order, collecting converted images and `(index, error)` pairs. -/
def splitResults : Nat → List (Except ImageError ConvertedImage) →
    List ConvertedImage × List (Nat × ImageError)
  | _, [] => ([], [])
  | index, result :: rest =>
      let split := splitResults (index + 1) rest
      match result with
      | .ok image => (image :: split.1, split.2)
      | .error err => (split.1, (index, err) :: split.2)

/-- Batch aggregation (`FormatConverter::aggregate_batch_results`): if
any item failed, report `BatchProcessingFailed` with the success count,
the failure count and the first (lowest-index) error; otherwise return
the converted images. -/
def aggregateBatchResults (results : List (Except ImageError ConvertedImage)) :
    Except ImageError (List ConvertedImage) :=
  let split := splitResults 0 results
  match split.2 with
  | [] => .ok split.1
  | (_, firstError) :: _ =>
      .error (.batchProcessingFailed split.1.length split.2.length firstError)

/-- Batch entry point (`FormatConverter::batch_convert`): mismatched list
lengths fail immediately with `InvalidParameters` (statistics untouched);
an empty batch returns the empty list; otherwise the per-item results are
computed by the configured policy and aggregated. -/
def batchConvert (e : CodecEngineModel) (cfg : ConverterConfig)
    (stats : ConversionStats) (images : List ImageInput)
    (tasks : List ConversionTask) :
    Except ImageError (List ConvertedImage) × ConversionStats :=
  if images.length ≠ tasks.length then
    (.error (.invalidParameters
      ("Images count (" ++ toString images.length
        ++ ") does not match tasks count (" ++ toString tasks.length ++ ")")),
      stats)
  else if images.isEmpty then
    (.ok [], stats)
  else
    let br := batchResults e cfg stats (images.zip tasks)
    (aggregateBatchResults br.1, br.2)

/-- Successful images of a result list, in order. -/
def oksOf (results : List (Except ImageError ConvertedImage)) :
    List ConvertedImage :=
  results.filterMap fun r =>
    match r with
    | .ok image => some image
    | .error _ => none

/-- Errors of a result list, in index order. -/
def errsOf (results : List (Except ImageError ConvertedImage)) :
    List ImageError :=
  results.filterMap fun r =>
    match r with
    | .ok _ => none
    | .error err => some err

/-! ## Quality assessor (spec §4.5) -/

/-- Modelled from the spec: the Quality Assessor PSNR computation
(`assess`) is absent from `src/` — only the `QualityMetrics` result type
and a `QualityAssessmentFailed` error variant exist there — so the PSNR
metric is modelled from spec §4.5: for equal-length non-empty byte
sequences, the mean squared error per byte, with PSNR
`10 * log10(255 ^ 2 / MSE)`, defined as the sentinel `100.0` when the MSE
is exactly 0, and `0.0` when the lengths differ or the input is empty.
The real-valued `log10` is a parameter of the model (its value is never
reached by the claims settled here). -/
def assessPsnr (log10 : ℚ → ℚ) (original converted : List Nat)
    (dims : ImageDimensions) : ℚ :=
  if original.length ≠ converted.length ∨ original.length = 0 then 0
  else
    let _ := dims
    let mse : ℚ :=
      (((original.zip converted).map
        (fun p => ((p.1 : ℚ) - (p.2 : ℚ)) ^ 2)).sum) / (original.length : ℚ)
    if mse = 0 then 100
    else 10 * log10 ((255 : ℚ) ^ 2 / mse)

/-! ## Helper lemmas -/

/-- Every ordered pair of supported formats passes
`supports_conversion`. -/
lemma supportsConversion_true (f t : ImageFormat) :
    supportsConversion f t = true := by
  cases f <;> cases t <;> rfl

/-- The squared byte differences of a sequence zipped with itself sum
to 0. -/
lemma zipSelf_sumSq_zero (x : List Nat) :
    ((x.zip x).map (fun p => ((p.1 : ℚ) - (p.2 : ℚ)) ^ 2)).sum = 0 := by
  induction x with
  | nil => simp
  | cons a t ih => simp [List.zip_cons_cons, ih]

/-! ## C2 — compression ratio of `ConvertedImage::new` -/

/-- C2: a `ConvertedImage` built by the orchestrator constructor has
`compression_ratio = converted_size / original_size`, except that the
ratio is exactly 1 when `original_size` is 0 (and `converted_size` is the
output byte count). -/
theorem convertedImage_compressionRatio (data : List Nat)
    (dims : ImageDimensions) (fmt : ImageFormat) (t : ℚ) (originalSize : Nat) :
    (ConvertedImage.new data dims fmt t originalSize).convertedSize
        = data.length
    ∧ (0 < originalSize →
        (ConvertedImage.new data dims fmt t originalSize).compressionRatio
          = ((ConvertedImage.new data dims fmt t originalSize).convertedSize : ℚ)
              / (originalSize : ℚ))
    ∧ (originalSize = 0 →
        (ConvertedImage.new data dims fmt t originalSize).compressionRatio = 1) := by
  refine ⟨rfl, fun hpos => ?_, fun hzero => ?_⟩
  · simp [ConvertedImage.new, hpos]
  · simp [ConvertedImage.new, hzero]

/-- C2 witness: the constructor evaluated at concrete inputs, in both the
positive-size and the zero-size case. -/
theorem convertedImage_compressionRatio_witness :
    (ConvertedImage.new [1, 2, 3] ⟨1, 3⟩ .png 0 6).compressionRatio
        = ((ConvertedImage.new [1, 2, 3] ⟨1, 3⟩ .png 0 6).convertedSize : ℚ) / (6 : ℚ)
    ∧ (ConvertedImage.new [1, 2, 3] ⟨1, 3⟩ .png 0 0).compressionRatio = 1 :=
  ⟨(convertedImage_compressionRatio [1, 2, 3] ⟨1, 3⟩ .png 0 6).2.1 (by decide),
   (convertedImage_compressionRatio [1, 2, 3] ⟨1, 3⟩ .png 0 0).2.2 rfl⟩

/-! ## C9 — PSNR sentinel and floor values (spec-modelled assessor) -/

/-- C9: the PSNR assessment returns the sentinel 100 on any non-empty
input compared with itself, and 0 (as a value) when the lengths differ or
the input is empty — for every interpretation of the real logarithm. -/
theorem assessPsnr_sentinels (log10 : ℚ → ℚ) (x y : List Nat)
    (dims : ImageDimensions) :
    (x ≠ [] → assessPsnr log10 x x dims = 100)
    ∧ (x.length ≠ y.length → assessPsnr log10 x y dims = 0)
    ∧ (x = [] → assessPsnr log10 x y dims = 0) := by
  refine ⟨fun hne => ?_, fun hlen => ?_, fun hempty => ?_⟩
  · have hlen0 : x.length ≠ 0 := by
      simpa [List.length_eq_zero] using hne
    simp [assessPsnr, hlen0, zipSelf_sumSq_zero]
  · simp [assessPsnr, hlen]
  · subst hempty
    simp [assessPsnr]

/-- C9 witness: the assessor evaluated on concrete byte lists for the
identical, mismatched-length and empty cases. -/
theorem assessPsnr_sentinels_witness :
    assessPsnr (fun _ => 0) [7, 8, 9] [7, 8, 9] ⟨1, 3⟩ = 100
    ∧ assessPsnr (fun _ => 0) [7, 8] [7, 8, 9] ⟨1, 3⟩ = 0
    ∧ assessPsnr (fun _ => 0) [] [] ⟨0, 0⟩ = 0 :=
  ⟨(assessPsnr_sentinels (fun _ => 0) [7, 8, 9] [7, 8, 9] ⟨1, 3⟩).1 (by decide),
   (assessPsnr_sentinels (fun _ => 0) [7, 8] [7, 8, 9] ⟨1, 3⟩).2.1 (by decide),
   (assessPsnr_sentinels (fun _ => 0) [] [] ⟨0, 0⟩).2.2 rfl⟩

/-! ## C10 — every format pair is supported; request validation can only
reject empty input -/

/-- C10: `supports_conversion` is true for all 64 ordered format pairs,
so the `UnsupportedOperation` branch of
`validate_conversion_request` is unreachable and validation reduces to
the empty-input check. -/
theorem supportsConversion_total_and_validate :
    (∀ f t : ImageFormat, supportsConversion f t = true)
    ∧ ∀ ctx : ConversionContext,
        validateConversionRequest ctx
          = if ctx.inputSize = 0 then
              .error (.invalidParameters "Empty input data")
            else .ok () := by
  refine ⟨supportsConversion_true, fun ctx => ?_⟩
  simp [validateConversionRequest,
    supportsConversion_true ctx.fromFormat ctx.toFormat]

/-! ## C7 — encode-time option validation -/

/-- C7: encoding validates options against the capabilities of the
target format before invoking the codec: for a lossy-capable target an
out-of-range quality fails with `InvalidParameters`, and for a target
without lossy support a compression level above 9 fails with
`InvalidParameters` — for every codec behaviour and buffer, so the value
is never silently clamped at encode time. -/
theorem engineEncode_validates (e : CodecEngineModel) (buf : ImageBuffer Rgba)
    (fmt : ImageFormat) (opts : ConversionOptions) :
    (∀ q : ℚ, fmt.supportsLossy = true → opts.quality = some q →
      ¬ (0 ≤ q ∧ q ≤ 1) →
      engineEncode e buf fmt opts
        = .error (.invalidParameters
            ("Quality " ++ toString q ++ " out of range [0.0, 1.0]")))
    ∧ (∀ l : Nat, fmt.supportsLossy = false → opts.compressionLevel = some l →
      9 < l →
      engineEncode e buf fmt opts
        = .error (.invalidParameters
            ("Compression level " ++ toString l ++ " out of range [0, 9]"))) := by
  constructor
  · intro q hlossy hq hbad
    have hv : validateEncodeParams fmt opts
        = .error (.invalidParameters
            ("Quality " ++ toString q ++ " out of range [0.0, 1.0]")) := by
      rw [ImageFormat.supportsLossy] at hlossy
      simp [validateEncodeParams, hlossy, hq, hbad]
      rfl
    simp [engineEncode, hv]
    rfl
  · intro l hnot hl hbig
    have hv : validateEncodeParams fmt opts
        = .error (.invalidParameters
            ("Compression level " ++ toString l ++ " out of range [0, 9]")) := by
      rw [ImageFormat.supportsLossy] at hnot
      simp [validateEncodeParams, hnot, hl, hbig]
      rfl
    simp [engineEncode, hv]
    rfl

/-- C7 witness: JPEG (lossy) with quality 2 and PNG (lossless) with
compression level 12 both rejected, evaluated concretely. -/
theorem engineEncode_validates_witness :
    engineEncode stubEngine (ImageBuffer.new Rgba 0 0 .rgba8) .jpeg
        { ConversionOptions.default with quality := some 2 }
      = .error (.invalidParameters
          ("Quality " ++ toString (2 : ℚ) ++ " out of range [0.0, 1.0]"))
    ∧ engineEncode stubEngine (ImageBuffer.new Rgba 0 0 .rgba8) .png
        { ConversionOptions.default with compressionLevel := some 12 }
      = .error (.invalidParameters
          ("Compression level " ++ toString (12 : Nat) ++ " out of range [0, 9]")) :=
  ⟨(engineEncode_validates stubEngine (ImageBuffer.new Rgba 0 0 .rgba8) .jpeg
      { ConversionOptions.default with quality := some 2 }).1 2
      (by decide) rfl (by norm_num),
   (engineEncode_validates stubEngine (ImageBuffer.new Rgba 0 0 .rgba8) .png
      { ConversionOptions.default with compressionLevel := some 12 }).2 12
      (by decide) rfl (by norm_num)⟩

/-! ## C1 — format detection -/

/-- C1 counterexample: a 12-byte input that begins with the canonical BMP
signature `42 4D` (and has at least 8 bytes) but is detected as AVIF, not
BMP, because the AVIF test inspects bytes 4–11 and runs before the BMP
test — the prefix tests are not mutually exclusive. -/
theorem detect_bmp_prefix_claimed_by_avif :
    hasSignature .bmp
        [0x42, 0x4D, 0x00, 0x00, 0x66, 0x74, 0x79, 0x70, 0x61, 0x76, 0x69, 0x66]
      = true
    ∧ 8 ≤ ([0x42, 0x4D, 0x00, 0x00, 0x66, 0x74, 0x79, 0x70, 0x61, 0x76, 0x69,
        0x66] : List Nat).length
    ∧ FormatDetector.detect
        [0x42, 0x4D, 0x00, 0x00, 0x66, 0x74, 0x79, 0x70, 0x61, 0x76, 0x69, 0x66]
      = .ok .avif
    ∧ FormatDetector.detect
        [0x42, 0x4D, 0x00, 0x00, 0x66, 0x74, 0x79, 0x70, 0x61, 0x76, 0x69, 0x66]
      ≠ .ok .bmp := by
  decide

/-- C1 (amended): detection is first-match-wins in the fixed test order;
a byte sequence of at least 8 bytes carrying the canonical signature of F is
detected as F provided no earlier-tested format signature test also
matches it, and every input shorter than 8 bytes (the empty sequence
included) fails with an `InvalidFormat` error. -/
theorem detect_first_match :
    (∀ (f : ImageFormat) (d : List Nat), 8 ≤ d.length →
      hasSignature f d = true →
      (∀ g : ImageFormat, detectPriority g < detectPriority f →
        hasSignature g d = false) →
      FormatDetector.detect d = .ok f)
    ∧ (∀ d : List Nat, d.length < 8 →
      FormatDetector.detect d
        = .error (.invalidFormat "Data too short for format detection")) := by
  constructor
  · intro f d h8 hf hprev
    have hlt : ¬ d.length < 8 := by omega
    cases f with
    | jpeg =>
        simp only [hasSignature] at hf
        simp only [FormatDetector.detect]
        rw [if_neg hlt, if_pos hf]
    | png =>
        have h0 := hprev .jpeg (by decide)
        simp only [hasSignature] at hf h0
        simp only [FormatDetector.detect]
        rw [if_neg hlt, if_neg (by simp [h0]), if_pos hf]
    | webp =>
        have h0 := hprev .jpeg (by decide)
        have h1 := hprev .png (by decide)
        simp only [hasSignature] at hf h0 h1
        simp only [FormatDetector.detect]
        rw [if_neg hlt, if_neg (by simp [h0]), if_neg (by simp [h1]),
          if_pos hf]
    | avif =>
        have h0 := hprev .jpeg (by decide)
        have h1 := hprev .png (by decide)
        have h2 := hprev .webp (by decide)
        simp only [hasSignature] at hf h0 h1 h2
        simp only [FormatDetector.detect]
        rw [if_neg hlt, if_neg (by simp [h0]), if_neg (by simp [h1]),
          if_neg (by simp [h2]), if_pos hf]
    | bmp =>
        have h0 := hprev .jpeg (by decide)
        have h1 := hprev .png (by decide)
        have h2 := hprev .webp (by decide)
        have h3 := hprev .avif (by decide)
        simp only [hasSignature] at hf h0 h1 h2 h3
        simp only [FormatDetector.detect]
        rw [if_neg hlt, if_neg (by simp [h0]), if_neg (by simp [h1]),
          if_neg (by simp [h2]), if_neg (by simp [h3]), if_pos hf]
    | tiff =>
        have h0 := hprev .jpeg (by decide)
        have h1 := hprev .png (by decide)
        have h2 := hprev .webp (by decide)
        have h3 := hprev .avif (by decide)
        have h4 := hprev .bmp (by decide)
        simp only [hasSignature] at hf h0 h1 h2 h3 h4
        simp only [FormatDetector.detect]
        rw [if_neg hlt, if_neg (by simp [h0]), if_neg (by simp [h1]),
          if_neg (by simp [h2]), if_neg (by simp [h3]), if_neg (by simp [h4]),
          if_pos hf]
    | gif =>
        have h0 := hprev .jpeg (by decide)
        have h1 := hprev .png (by decide)
        have h2 := hprev .webp (by decide)
        have h3 := hprev .avif (by decide)
        have h4 := hprev .bmp (by decide)
        have h5 := hprev .tiff (by decide)
        simp only [hasSignature] at hf h0 h1 h2 h3 h4 h5
        simp only [FormatDetector.detect]
        rw [if_neg hlt, if_neg (by simp [h0]), if_neg (by simp [h1]),
          if_neg (by simp [h2]), if_neg (by simp [h3]), if_neg (by simp [h4]),
          if_neg (by simp [h5]), if_pos hf]
    | ico =>
        have h0 := hprev .jpeg (by decide)
        have h1 := hprev .png (by decide)
        have h2 := hprev .webp (by decide)
        have h3 := hprev .avif (by decide)
        have h4 := hprev .bmp (by decide)
        have h5 := hprev .tiff (by decide)
        have h6 := hprev .gif (by decide)
        simp only [hasSignature] at hf h0 h1 h2 h3 h4 h5 h6
        simp only [FormatDetector.detect]
        rw [if_neg hlt, if_neg (by simp [h0]), if_neg (by simp [h1]),
          if_neg (by simp [h2]), if_neg (by simp [h3]), if_neg (by simp [h4]),
          if_neg (by simp [h5]), if_neg (by simp [h6]), if_pos hf]
  · intro d hshort
    simp only [FormatDetector.detect]
    rw [if_pos hshort]

/-- C1 witness: the amended theorem applied to the 8-byte PNG signature
and to an input of fewer than 8 bytes. -/
theorem detect_first_match_witness :
    FormatDetector.detect [0x89, 0x50, 0x4E, 0x47, 0x0D, 0x0A, 0x1A, 0x0A]
      = .ok .png
    ∧ FormatDetector.detect [0x47, 0x49, 0x46]
      = .error (.invalidFormat "Data too short for format detection") :=
  ⟨detect_first_match.1 .png
      [0x89, 0x50, 0x4E, 0x47, 0x0D, 0x0A, 0x1A, 0x0A] (by decide) (by decide)
      (by intro g; cases g <;> decide),
   detect_first_match.2 [0x47, 0x49, 0x46] (by decide)⟩

/-! ## C8 — the RGBA-to-gray luma coefficients -/

/-- C8 counterexample: on the pure-red pixel the source function
`Rgba::luminance` yields 54 (BT.709 coefficients 0.2126/0.7152/0.0722),
while the claimed formula `0.299R + 0.587G + 0.114B` yields 76 — the
code does not compute the claimed luma formula. -/
theorem luminance_not_bt601 :
    Rgba.luminance ⟨255, 0, 0, 255⟩ = 54
    ∧ lumaBt601Spec ⟨255, 0, 0, 255⟩ = 76
    ∧ Rgba.luminance ⟨255, 0, 0, 255⟩ ≠ lumaBt601Spec ⟨255, 0, 0, 255⟩ := by
  refine ⟨?_, ?_, ?_⟩ <;> norm_num [Rgba.luminance, lumaBt601Spec] <;> decide

/-- C8 (amended): the RGBA-to-gray reduction computes the BT.709 luma
`0.2126R + 0.7152G + 0.0722B` (truncated to an integer), and for byte
inputs the saturating `as u8` cast never clamps: the result is the plain
floor of the formula and is at most 255. -/
theorem luminance_bt709 (r g b a : Nat) (hr : r ≤ 255) (hg : g ≤ 255)
    (hb : b ≤ 255) :
    Rgba.luminance ⟨r, g, b, a⟩
      = Int.toNat ⌊0.2126 * (r : ℚ) + 0.7152 * (g : ℚ) + 0.0722 * (b : ℚ)⌋
    ∧ Rgba.luminance ⟨r, g, b, a⟩ ≤ 255 := by
  have hrq : (r : ℚ) ≤ 255 := by exact_mod_cast hr
  have hgq : (g : ℚ) ≤ 255 := by exact_mod_cast hg
  have hbq : (b : ℚ) ≤ 255 := by exact_mod_cast hb
  have hr0 : (0 : ℚ) ≤ (r : ℚ) := Nat.cast_nonneg r
  have hg0 : (0 : ℚ) ≤ (g : ℚ) := Nat.cast_nonneg g
  have hb0 : (0 : ℚ) ≤ (b : ℚ) := Nat.cast_nonneg b
  set lum : ℚ := 0.2126 * (r : ℚ) + 0.7152 * (g : ℚ) + 0.0722 * (b : ℚ) with hlum
  have hnonneg : (0 : ℚ) ≤ lum := by rw [hlum]; positivity
  have hle : lum ≤ 255 := by rw [hlum]; nlinarith
  have hfloor0 : (0 : ℤ) ≤ ⌊lum⌋ := Int.floor_nonneg.mpr hnonneg
  have hfloor255 : ⌊lum⌋ ≤ 255 := by
    have := Int.floor_le_floor (α := ℚ) hle
    simpa using this
  have hmax : max ⌊lum⌋ 0 = ⌊lum⌋ := max_eq_left hfloor0
  have hmin : min (max ⌊lum⌋ 0) 255 = ⌊lum⌋ := by
    rw [hmax]; exact min_eq_left hfloor255
  constructor
  · show Int.toNat (min (max ⌊lum⌋ 0) 255) = Int.toNat ⌊lum⌋
    rw [hmin]
  · show Int.toNat (min (max ⌊lum⌋ 0) 255) ≤ 255
    rw [hmin]
    exact Int.toNat_le.mpr hfloor255

/-- C8 witness: the amended theorem evaluated on a concrete pixel. -/
theorem luminance_bt709_witness :
    Rgba.luminance ⟨10, 20, 30, 40⟩
      = Int.toNat ⌊0.2126 * (10 : ℚ) + 0.7152 * (20 : ℚ) + 0.0722 * (30 : ℚ)⌋
    ∧ Rgba.luminance ⟨10, 20, 30, 40⟩ ≤ 255 :=
  luminance_bt709 10 20 30 40 (by decide) (by decide) (by decide)

/-! ## C3 — the pixel-buffer length invariant -/

/-- C3 counterexample: `ImageBuffer::new(2, 2, Rgba8)` yields a buffer
whose pixel vector is empty (`Vec::with_capacity` has length 0), so
`pixels.len() == width * height` fails on a freshly constructed 2×2
buffer, without any error being raised; and `from_raw` checks the data
length against the wrapping u32 product `(width * height) as usize`, so
`from_raw(65536, 65536, vec![])` — whose u32 product wraps to 0 —
succeeds with 0 pixels at 65536×65536 dimensions, again violating the
plain equality with no error. -/
theorem imageBuffer_new_violates_invariant :
    (ImageBuffer.new Rgba 2 2 .rgba8).pixels.length
      ≠ (ImageBuffer.new Rgba 2 2 .rgba8).dimensions.width
          * (ImageBuffer.new Rgba 2 2 .rgba8).dimensions.height
    ∧ ImageBuffer.fromRaw Nat 65536 65536 [] .rgba8
        = .ok ⟨[], ⟨65536, 65536⟩, .rgba8⟩
    ∧ ([] : List Nat).length ≠ 65536 * 65536 := by
  refine ⟨by decide, by decide, by decide⟩

/-- C3 (amended): `ImageBuffer::from_raw` establishes
`pixels.len() == (width * height) mod 2^32` — the wrapping u32 product
the source checks against — or fails with an error, which gives the plain
`pixels.len() == width * height` exactly when the product does not
overflow u32 (an overflowing pair such as 65536×65536 is accepted with an
inconsistent buffer); the buffer operations (`put_pixel`, the engine
pixel-format conversion) preserve the pixel count and dimensions;
`ImageBuffer::new`, however, always yields an empty pixel vector, so a
fresh buffer satisfies the equality only when `width * height` is 0. -/
theorem imageBuffer_invariant :
    (∀ (P : Type) (w h : Nat) (d : List P) (fmt : PixelFormat)
        (buf : ImageBuffer P),
      ImageBuffer.fromRaw P w h d fmt = .ok buf →
        buf.pixels.length
            = buf.dimensions.width * buf.dimensions.height % 2 ^ 32
        ∧ (w * h < 2 ^ 32 →
            buf.pixels.length = buf.dimensions.width * buf.dimensions.height))
    ∧ (∀ (P : Type) (buf : ImageBuffer P) (x y : Nat) (p : P)
        (buf2 : ImageBuffer P),
      buf.putPixel x y p = .ok buf2 →
        buf2.pixels.length = buf.pixels.length
        ∧ buf2.dimensions = buf.dimensions)
    ∧ (∀ (P Q : Type) (conv : P → Q) (tgt : PixelFormat) (buf : ImageBuffer P),
      (convertBuffer conv tgt buf).pixels.length = buf.pixels.length
      ∧ (convertBuffer conv tgt buf).dimensions = buf.dimensions)
    ∧ (∀ (P : Type) (w h : Nat) (fmt : PixelFormat),
      (ImageBuffer.new P w h fmt).pixels.length = 0) := by
  refine ⟨?_, ?_, ?_, ?_⟩
  · intro P w h d fmt buf hok
    unfold ImageBuffer.fromRaw at hok
    by_cases hlen : d.length = w * h % 2 ^ 32
    · rw [if_neg (by simp [hlen])] at hok
      injection hok with hbuf
      subst hbuf
      constructor
      · simpa using hlen
      · intro hsmall
        rw [Nat.mod_eq_of_lt hsmall] at hlen
        simpa using hlen
    · rw [if_pos hlen] at hok
      exact Except.noConfusion hok
  · intro P buf x y p buf2 hok
    unfold ImageBuffer.putPixel at hok
    by_cases hbounds : x ≥ buf.dimensions.width ∨ y ≥ buf.dimensions.height
    · rw [if_pos hbounds] at hok
      exact Except.noConfusion hok
    · rw [if_neg hbounds] at hok
      by_cases hidx : (y * buf.dimensions.width + x) % 2 ^ 32
          < buf.pixels.length
      · rw [if_pos hidx] at hok
        injection hok with hbuf
        subst hbuf
        simp
      · rw [if_neg hidx] at hok
        exact Except.noConfusion hok
  · intro P Q conv tgt buf
    simp [convertBuffer]
  · intro P w h fmt
    rfl

/-- C3 witness: `from_raw` and `put_pixel` evaluated on a concrete 1×2
buffer, plus a format conversion. -/
theorem imageBuffer_invariant_witness :
    ((⟨[5, 6], ⟨1, 2⟩, .rgba8⟩ : ImageBuffer Nat)).pixels.length
      = ((⟨[5, 6], ⟨1, 2⟩, .rgba8⟩ : ImageBuffer Nat)).dimensions.width
          * ((⟨[5, 6], ⟨1, 2⟩, .rgba8⟩ : ImageBuffer Nat)).dimensions.height
    ∧ ((⟨[9, 6], ⟨1, 2⟩, .rgba8⟩ : ImageBuffer Nat)).pixels.length
        = ((⟨[5, 6], ⟨1, 2⟩, .rgba8⟩ : ImageBuffer Nat)).pixels.length :=
  ⟨(imageBuffer_invariant.1 Nat 1 2 [5, 6] .rgba8 ⟨[5, 6], ⟨1, 2⟩, .rgba8⟩
      (by decide)).2 (by decide),
   (imageBuffer_invariant.2.1 Nat ⟨[5, 6], ⟨1, 2⟩, .rgba8⟩ 0 0 9
      ⟨[9, 6], ⟨1, 2⟩, .rgba8⟩ (by decide)).1⟩

/-! ## C4 — statistics updates in `convert_format` -/

/-- C4 counterexample: a call on empty input returns an
`InvalidParameters` error with the statistics object completely
unchanged — in particular the total-conversions counter stays 0 — so not
every erroring call updates the statistics. -/
theorem convertFormat_validation_skips_stats :
    convertFormat stubEngine ConverterConfig.default ConversionStats.default []
        .png .jpeg none
      = (.error (.invalidParameters "Empty input data"),
          ConversionStats.default)
    ∧ (convertFormat stubEngine ConverterConfig.default ConversionStats.default
        [] .png .jpeg none).2.totalConversions = 0 :=
  ⟨rfl, rfl⟩

/-- C4 (amended): every call on non-empty input — whether the conversion
then succeeds or fails — updates the statistics exactly once, incrementing
the total-conversions counter and the `(from, to)` usage counter by 1
(and leaving the usage counter of every other pair unchanged); a call that
fails request validation (empty input) returns before the update and
leaves the statistics unchanged. -/
theorem convertFormat_stats (e : CodecEngineModel) (cfg : ConverterConfig)
    (stats : ConversionStats) (imageData : List Nat)
    (f t : ImageFormat) (opts : Option ConversionOptions) :
    (imageData ≠ [] →
      (convertFormat e cfg stats imageData f t opts).2.totalConversions
          = stats.totalConversions + 1
      ∧ (convertFormat e cfg stats imageData f t opts).2.formatUsage (f, t)
          = stats.formatUsage (f, t) + 1
      ∧ ∀ pair : ImageFormat × ImageFormat, pair ≠ (f, t) →
          (convertFormat e cfg stats imageData f t opts).2.formatUsage pair
            = stats.formatUsage pair)
    ∧ (imageData = [] →
      convertFormat e cfg stats imageData f t opts
        = (.error (.invalidParameters "Empty input data"), stats)) := by
  constructor
  · intro hne
    have hlen : imageData.length ≠ 0 := by
      simpa [List.length_eq_zero] using hne
    have hval : validateConversionRequest
        { fromFormat := f, toFormat := t, inputSize := imageData.length,
          options := opts.getD (getDefaultOptions cfg),
          enableMonitoring := cfg.enablePerformanceMonitoring } = .ok () := by
      simp [validateConversionRequest, supportsConversion_true, hlen]
    simp only [convertFormat, hval]
    cases hres : executeConversion e imageData
        { fromFormat := f, toFormat := t, inputSize := imageData.length,
          options := opts.getD (getDefaultOptions cfg),
          enableMonitoring := cfg.enablePerformanceMonitoring } with
    | ok img =>
        refine ⟨by simp [updateConversionStats, hres], ?_, ?_⟩
        · simp [updateConversionStats, hres]
        · intro pair hpair
          simp [updateConversionStats, hres, hpair]
    | error err =>
        refine ⟨by simp [updateConversionStats, hres], ?_, ?_⟩
        · simp [updateConversionStats, hres]
        · intro pair hpair
          simp [updateConversionStats, hres, hpair]
  · intro hempty
    subst hempty
    have hval : validateConversionRequest
        { fromFormat := f, toFormat := t, inputSize := ([] : List Nat).length,
          options := opts.getD (getDefaultOptions cfg),
          enableMonitoring := cfg.enablePerformanceMonitoring }
        = .error (.invalidParameters "Empty input data") := by
      simp [validateConversionRequest, supportsConversion_true]
    simp only [convertFormat, hval]

/-- C4 witness: a non-empty one-byte conversion under the stub codecs
(which fails decoding) still increments both counters, and the empty-input
call leaves the statistics unchanged. -/
theorem convertFormat_stats_witness :
    (convertFormat stubEngine ConverterConfig.default ConversionStats.default
        [0x42] .png .jpeg none).2.totalConversions
      = ConversionStats.default.totalConversions + 1
    ∧ convertFormat stubEngine ConverterConfig.default ConversionStats.default
        [] .bmp .gif none
      = (.error (.invalidParameters "Empty input data"),
          ConversionStats.default) :=
  ⟨(convertFormat_stats stubEngine ConverterConfig.default
      ConversionStats.default [0x42] .png .jpeg none).1 (by decide) |>.1,
   (convertFormat_stats stubEngine ConverterConfig.default
      ConversionStats.default [] .bmp .gif none).2 rfl⟩

/-! ## Batch aggregation lemmas -/

/-- The image component of the aggregation split collects exactly the
successful results, in order. -/
lemma splitResults_fst (i : Nat)
    (rs : List (Except ImageError ConvertedImage)) :
    (splitResults i rs).1 = oksOf rs := by
  induction rs generalizing i with
  | nil => rfl
  | cons r t ih =>
      cases r with
      | ok img => simp [splitResults, oksOf, ih]
      | error err => simp [splitResults, oksOf, ih]

/-- The error component of the aggregation split carries exactly the
errors, in index order. -/
lemma splitResults_snd_map (i : Nat)
    (rs : List (Except ImageError ConvertedImage)) :
    (splitResults i rs).2.map Prod.snd = errsOf rs := by
  induction rs generalizing i with
  | nil => rfl
  | cons r t ih =>
      cases r with
      | ok img => simp [splitResults, errsOf, ih]
      | error err => simp [splitResults, errsOf, ih]

/-- Count of collected errors. -/
lemma splitResults_snd_length (i : Nat)
    (rs : List (Except ImageError ConvertedImage)) :
    (splitResults i rs).2.length = (errsOf rs).length := by
  rw [← splitResults_snd_map i rs, List.length_map]

/-- Characterisation of `aggregate_batch_results`: the empty-error case
returns the successes, otherwise a `BatchProcessingFailed` carrying the
success count, the failure count and the first error. -/
lemma aggregateBatchResults_eq (rs : List (Except ImageError ConvertedImage)) :
    aggregateBatchResults rs
      = match errsOf rs with
        | [] => .ok (oksOf rs)
        | err :: _ =>
            .error (.batchProcessingFailed (oksOf rs).length
              (errsOf rs).length err) := by
  have h1 := splitResults_fst 0 rs
  have h2 := splitResults_snd_map 0 rs
  have h3 := splitResults_snd_length 0 rs
  simp only [aggregateBatchResults]
  cases hsp : (splitResults 0 rs).2 with
  | nil =>
      rw [hsp] at h2
      simp only [List.map_nil] at h2
      rw [← h2, h1]
  | cons pe pt =>
      rw [hsp] at h2 h3
      simp only [List.map_cons] at h2
      rw [← h2]
      simp only [h1, ← h3, List.length_cons, List.length_map]

/-- The per-item result list of the empty batch is empty under either
execution policy, with the statistics unchanged. -/
lemma batchResults_nil (e : CodecEngineModel) (cfg : ConverterConfig)
    (stats : ConversionStats) :
    batchResults e cfg stats [] = ([], stats) := by
  cases hcp : cfg.enableParallel <;>
    simp [batchResults, executeSequentialBatch, hcp]

/-! ## C6 — mismatched batch lengths fail before any work -/

/-- C6: `batch_convert` with mismatched input/task list lengths fails
immediately with `InvalidParameters`, and the statistics object is
returned unchanged — no conversion runs. -/
theorem batchConvert_length_mismatch (e : CodecEngineModel)
    (cfg : ConverterConfig) (stats : ConversionStats)
    (images : List ImageInput) (tasks : List ConversionTask)
    (h : images.length ≠ tasks.length) :
    batchConvert e cfg stats images tasks
      = (.error (.invalidParameters
          ("Images count (" ++ toString images.length
            ++ ") does not match tasks count (" ++ toString tasks.length
            ++ ")")), stats) := by
  simp only [batchConvert]
  rw [if_pos h]

/-- C6 witness: one image and zero tasks. -/
theorem batchConvert_length_mismatch_witness :
    batchConvert stubEngine ConverterConfig.default ConversionStats.default
        [⟨[0x42], .png, none⟩] []
      = (.error (.invalidParameters
          ("Images count (" ++ toString (1 : Nat)
            ++ ") does not match tasks count (" ++ toString (0 : Nat)
            ++ ")")), ConversionStats.default) :=
  batchConvert_length_mismatch stubEngine ConverterConfig.default
    ConversionStats.default [⟨[0x42], .png, none⟩] [] (by decide)

/-! ## C5 — batch aggregation semantics -/

/-- C5: for equal-length batches, if the conversion of any item fails then
`batch_convert` reports `BatchProcessingFailed` whose successful count is
the number of items that converted, whose failed count is the number that
failed, and whose first error is the error of the lowest-index item; the
converted-image list is returned exactly when every item succeeds. -/
theorem batchConvert_aggregation (e : CodecEngineModel)
    (cfg : ConverterConfig) (stats : ConversionStats)
    (images : List ImageInput) (tasks : List ConversionTask)
    (hlen : images.length = tasks.length) :
    (∀ err : ImageError,
      (errsOf (batchResults e cfg stats (images.zip tasks)).1).head? = some err →
      (batchConvert e cfg stats images tasks).1
        = .error (.batchProcessingFailed
            (oksOf (batchResults e cfg stats (images.zip tasks)).1).length
            (errsOf (batchResults e cfg stats (images.zip tasks)).1).length
            err))
    ∧ (errsOf (batchResults e cfg stats (images.zip tasks)).1 = [] →
      (batchConvert e cfg stats images tasks).1
        = .ok (oksOf (batchResults e cfg stats (images.zip tasks)).1)) := by
  by_cases himg : images.isEmpty
  · have hnil : images = [] := by
      simpa [List.isEmpty_iff] using himg
    subst hnil
    have hz : ([] : List ImageInput).zip tasks = [] := rfl
    constructor
    · intro err herr
      rw [hz, batchResults_nil] at herr
      simp [errsOf] at herr
    · intro _
      rw [hz, batchResults_nil]
      simp only [batchConvert]
      rw [if_neg (by omega), if_pos (by rfl)]
      simp [oksOf]
  · have hbody : batchConvert e cfg stats images tasks
        = (aggregateBatchResults
            (batchResults e cfg stats (images.zip tasks)).1,
          (batchResults e cfg stats (images.zip tasks)).2) := by
      simp only [batchConvert]
      rw [if_neg (by omega), if_neg (by simp [himg])]
    constructor
    · intro err herr
      rw [hbody]
      simp only
      rw [aggregateBatchResults_eq]
      cases hes : errsOf (batchResults e cfg stats (images.zip tasks)).1 with
      | nil => rw [hes] at herr; exact absurd herr (by simp)
      | cons e0 et =>
          rw [hes] at herr
          simp only [List.head?_cons, Option.some.injEq] at herr
          subst herr
          rfl
    · intro hes
      rw [hbody]
      simp only
      rw [aggregateBatchResults_eq, hes]

/-- C5 witness: a one-item batch that fails under the stub codecs
produces `BatchProcessingFailed` with the error of the failing item, and the
empty batch succeeds with the empty list. -/
theorem batchConvert_aggregation_witness :
    (batchConvert stubEngine ConverterConfig.default ConversionStats.default
        [⟨[0x42], .png, none⟩] [⟨.png, .jpeg, none⟩]).1
      = .error (.batchProcessingFailed
          (oksOf (batchResults stubEngine ConverterConfig.default
            ConversionStats.default
            ([⟨[0x42], .png, none⟩].zip [⟨.png, .jpeg, none⟩])).1).length
          (errsOf (batchResults stubEngine ConverterConfig.default
            ConversionStats.default
            ([⟨[0x42], .png, none⟩].zip [⟨.png, .jpeg, none⟩])).1).length
          (.invalidFormat "Data does not match format PNG"))
    ∧ (batchConvert stubEngine ConverterConfig.default ConversionStats.default
        [] []).1
      = .ok (oksOf (batchResults stubEngine ConverterConfig.default
          ConversionStats.default (List.zip [] [])).1) :=
  ⟨(batchConvert_aggregation stubEngine ConverterConfig.default
      ConversionStats.default [⟨[0x42], .png, none⟩] [⟨.png, .jpeg, none⟩]
      rfl).1 (.invalidFormat "Data does not match format PNG") (by decide),
   (batchConvert_aggregation stubEngine ConverterConfig.default
      ConversionStats.default [] [] rfl).2 (by decide)⟩

end RustImage
